import Mathlib

/-!
Verification development for the video-RAG backend.

This file gives a shallow embedding, in Lean 4, of the pure logic of the
backend of the `End-to-End-Video-RAG-Understanding-with-Local-Agentic-SLM`
repository, and proves (or refutes) the frozen specification claims about it.

The embedded components are:
 * the transcript chunker `chunk_transcript_text`
   (`backend/web/mcp_tools/audio_extractor.py`, identical copy in
   `backend/src/mcp_tools/audio_extractor.py`);
 * the hybrid indexer `index_chunks_to_qdrant`
   (`backend/src/vector_database/utils.py`);
 * the ordered full-scan retriever `get_summary_chunks`
   (`backend/src/vector_database/retriever.py`);
 * the supervisor routing node `supervisor_node`
   (`backend/web/agent/supervisor_agent.py`);
 * the RAG node `rag_node` (`backend/web/agent/rag_agent.py`), the report
   node `report_node` (`backend/web/agent/report_agent.py`), and the
   session-guarded RAG workflow node `rag_workflow_node`
   (`backend/web/agent/agent_workflow_builder.py`).

External collaborators (tokenizer, text splitter, embedding models, the LLM,
the Qdrant service) are modelled as explicit function parameters or as an
in-memory point store, just as the spec treats them (black boxes behind an
interface).  Machine floats that only ever carry transcript timestamps are
modelled as `Int` (the source derives them from integer-second keys);
fallible calls return `Option`/`Except`.
-/

/-! ## Python string semantics helpers

Python strings are sequences of characters; several `String` library
functions in Lean do not reduce under kernel evaluation, so the embedding
works on the underlying `List Char` with structurally recursive definitions.
-/

/-- Python `str.strip()`: remove leading and trailing whitespace. -/
def pyStrip (s : String) : String :=
  ⟨List.rdropWhile Char.isWhitespace (List.dropWhile Char.isWhitespace s.data)⟩

/-- Character-list version of Python `str.startswith(pat)`. -/
def startsWithL : List Char → List Char → Bool
  | [], _ => true
  | _ :: _, [] => false
  | p :: ps, c :: cs => p = c && startsWithL ps cs

/-- Python `s.startswith(pat)`. -/
def pyStartsWith (s pat : String) : Bool := startsWithL pat.data s.data

/-- Python `s.endswith(pat)`. -/
def pyEndsWith (s pat : String) : Bool := startsWithL pat.data.reverse s.data.reverse

/-- Python slicing `s[n:]`. -/
def pyDrop (s : String) (n : Nat) : String := ⟨s.data.drop n⟩

/-- Python slicing `s[:-n]` (for `n ≤ len(s)`). -/
def pyDropRight (s : String) (n : Nat) : String := ⟨s.data.rdrop n⟩

/-- Python `s.upper()` (ASCII). -/
def pyUpper (s : String) : String := ⟨s.data.map Char.toUpper⟩

/-- Python `s.replace(c, r)` for one-character pattern and replacement. -/
def pyReplaceChar (c r : Char) (s : String) : String :=
  ⟨s.data.map (fun x => if x = c then r else x)⟩

/-- The single-quote character, written by code point to keep sources plain. -/
def sglQuoteChar : Char := Char.ofNat 39

/-- The double-quote character. -/
def dblQuoteChar : Char := Char.ofNat 34

/-- The single-quote character as a one-character string. -/
def sglQuote : String := String.singleton sglQuoteChar

/-- The double-quote character as a one-character string. -/
def dblQuote : String := String.singleton dblQuoteChar

/-- Stable insertion of `x` into `l`, after every element `y` with `le y x`:
the insertion step of a stable ascending sort. -/
def insertStable (le : α → α → Bool) (x : α) : List α → List α
  | [] => [x]
  | y :: ys => if le y x then y :: insertStable le x ys else x :: y :: ys

/-- Stable ascending sort, modelling Python `list.sort(key=...)` /
`sorted(key=...)` (Timsort is stable; this insertion sort is stable for the
same comparator, and agrees with it on every input). -/
def pySortStable (le : α → α → Bool) (l : List α) : List α :=
  l.foldl (fun acc x => insertStable le x acc) []

/-! ## Transcript chunker

Embedding of `chunk_transcript_text` from
`backend/web/mcp_tools/audio_extractor.py` (lines 276-381; the copy in
`backend/src/mcp_tools/audio_extractor.py` lines 207-312 is identical in its
chunking logic).  The YAML file read and the timeframe parsing produce the
segment list; the embedding takes that list (key, numeric start/end, text) as
input.  The tokenizer `count_tokens` and the
`RecursiveCharacterTextSplitter.split_text` method are external collaborators,
passed as the functions `tc` and `split`.
-/

/-- One transcript segment: a tuple `(timeframe, start, end, text)` as built
by the source from the YAML mapping (`end` is named `stop` because `end` is a
Lean keyword). -/
structure Seg where
  key : String
  start : Int
  stop : Int
  text : String
deriving DecidableEq

/-- One output chunk dict `{start, end, groups, text}`.  `start`/`stop` are
`Option` because the source initialises them to Python `None`. -/
structure Chunk where
  start : Option Int
  stop : Option Int
  groups : List String
  text : String
deriving DecidableEq

/-- The mutable accumulator `current_chunk`. -/
structure CurChunk where
  text : String
  groups : List String
  start : Option Int
  stop : Option Int
deriving DecidableEq

/-- The `current_chunk` reset value `{"text": "", "groups": [], "start": None, "end": None}`. -/
def emptyAcc : CurChunk := ⟨"", [], none, none⟩

/-- Emitting the accumulator as a chunk (`chunks.append({...})` with
`text.strip()`). -/
def flushAcc (a : CurChunk) : Chunk := ⟨a.start, a.stop, a.groups, pyStrip a.text⟩

/-- Loop state of the chunking loop: emitted chunks plus the accumulator. -/
structure ChunkState where
  chunks : List Chunk
  cur : CurChunk
deriving DecidableEq

/-- The chunks emitted for one oversized segment: `splitter.split_text(text)`
pieces, each tagged `key#partN`. -/
def partChunks (split : String → List String) (seg : Seg) (t : String) : List Chunk :=
  (split t).enum.map fun pr =>
    ⟨some seg.start, some seg.stop, [seg.key ++ "#part" ++ toString (pr.1 + 1)], pyStrip pr.2⟩

/-- Appending one segment to the accumulator (sets `start` when the
accumulator was empty, extends `end`, appends the group key, space-joins the
text), exactly as the last four statements of the source loop body. -/
def appendSeg (a : CurChunk) (seg : Seg) : CurChunk :=
  ⟨a.text ++ (if a.text = "" then "" else " ") ++ pyStrip seg.text,
   a.groups ++ [seg.key],
   if a.text = "" then some seg.start else a.start,
   some seg.stop⟩

/-- One iteration of the chunking loop over a segment.  Note two quirks kept
faithfully from the source: the second flush condition measures the
accumulator by *character* length (`len(current_chunk["text"])`) while the
segment contributes its *token* count, and that flush has no emptiness guard,
so it can emit the empty accumulator (with `start = None`). -/
def chunkStep (tc : String → Nat) (split : String → List String) (maxTok : Nat)
    (st : ChunkState) (seg : Seg) : ChunkState :=
  if tc (pyStrip seg.text) > maxTok then
    ⟨(if st.cur.text = "" then st.chunks else st.chunks ++ [flushAcc st.cur]) ++
      partChunks split seg (pyStrip seg.text), emptyAcc⟩
  else if st.cur.text.length + tc (pyStrip seg.text) + 1 > maxTok then
    ⟨st.chunks ++ [flushAcc st.cur], appendSeg emptyAcc seg⟩
  else
    ⟨st.chunks, appendSeg st.cur seg⟩

/-- The trailing `if current_chunk["text"]: chunks.append({...})`. -/
def finalizeChunks (st : ChunkState) : List Chunk :=
  if st.cur.text = "" then st.chunks else st.chunks ++ [flushAcc st.cur]

/-- Building `transcript_text`: keep segments whose stripped text is
non-empty, storing the stripped text. -/
def filteredSegs (transcript : List Seg) : List Seg :=
  (transcript.filter fun s => decide (pyStrip s.text ≠ "")).map
    fun s => { s with text := pyStrip s.text }

/-- `transcript_text.sort(key=lambda x: x[1])`: stable ascending sort on the
numeric start. -/
def sortedSegs (transcript : List Seg) : List Seg :=
  pySortStable (fun a b => decide (a.start ≤ b.start)) (filteredSegs transcript)

/-- The filter/sort/accumulate pipeline of `chunk_transcript_text`: filter
and strip the segments, sort by start time, run the accumulation loop, flush
the trailing accumulator. -/
def chunk_transcript_text (tc : String → Nat) (split : String → List String)
    (maxTok : Nat) (transcript : List Seg) : List Chunk :=
  finalizeChunks ((sortedSegs transcript).foldl (chunkStep tc split maxTok) ⟨[], emptyAcc⟩)

/-- Embedding of the full `chunk_transcript_text` call, including the
splitter construction that precedes the loop: the source builds
`RecursiveCharacterTextSplitter.from_huggingface_tokenizer` with
`chunk_size = max_chunk_token_size` and the fixed `chunk_overlap = 100`
(`audio_extractor.py` lines 307-311), and langchain raises `ValueError`
whenever the overlap exceeds the chunk size — so every budget below 100
deterministically raises before any segment is processed.  For valid
budgets the pipeline runs. -/
def chunk_transcript_text_checked (tc : String → Nat) (split : String → List String)
    (maxTok : Nat) (transcript : List Seg) : Except String (List Chunk) :=
  if 100 > maxTok then
    Except.error ("Got a larger chunk overlap (100) than chunk size (" ++
      toString maxTok ++ "), should be smaller.")
  else
    Except.ok (chunk_transcript_text tc split maxTok transcript)

/-- The group ids a single segment is expected to contribute: its `#partN`
sub-part ids when it alone exceeds the token budget, else its own key. -/
def segGroups (tc : String → Nat) (split : String → List String) (maxTok : Nat)
    (seg : Seg) : List String :=
  if tc (pyStrip seg.text) > maxTok then
    (split (pyStrip seg.text)).enum.map fun pr => seg.key ++ "#part" ++ toString (pr.1 + 1)
  else [seg.key]

/-- The reference group sequence: the start-ordered keys of the segments with
non-whitespace text, oversized ones replaced by their sub-part ids. -/
def expectedGroups (tc : String → Nat) (split : String → List String) (maxTok : Nat)
    (transcript : List Seg) : List String :=
  (sortedSegs transcript).flatMap (segGroups tc split maxTok)

/-- All group ids held by a loop state, chunks first, accumulator last. -/
def stateGroups (st : ChunkState) : List String :=
  st.chunks.flatMap Chunk.groups ++ st.cur.groups

/-- Loop invariant: an accumulator with empty text holds no group ids. -/
def accInv (st : ChunkState) : Prop := st.cur.text = "" → st.cur.groups = []

/-! ## Hybrid indexer and ordered full-scan retriever

Embedding of `index_chunks_to_qdrant` (`backend/src/vector_database/utils.py`
lines 106-197) and `get_summary_chunks`
(`backend/src/vector_database/retriever.py` lines 124-175).  The dense and
sparse embedding models are external collaborators, modelled as
`Option`-valued functions (`none` models the exceptions their `try/except`
wrappers catch); `str(uuid4())` is modelled as a supplied id generator over
the enumeration index; the Qdrant service is modelled as an in-memory point
store per collection (`get_or_create_collection` yields the empty store when
the collection is absent, `upsert` appends the new points).
-/

/-- One summary chunk dict as produced by `summarize_transcript_chunks` /
`summarize_frame_groups`: keys `text`, `summary`, `topics`, `type`. -/
structure SummaryChunk where
  text : String
  summary : String
  topics : List String
  type : String
deriving DecidableEq

/-- The payload dict stored with an indexed point.  Optional fields model
dict keys that may be absent (`none` = key not present). -/
structure QdrantPayload where
  text : String
  summary : String
  topics : List String
  type? : Option String
  sequence_index? : Option Nat
deriving DecidableEq

/-- A Qdrant `PointStruct` with hybrid vectors (vector types abstract). -/
structure QdrantPoint (V S : Type) where
  id : String
  dense : V
  sparse : S
  payload : QdrantPayload
deriving DecidableEq

/-- The embedding text
`f"Summary: {summary}\nTopics: {', '.join(topics)}\n---\n{text}"`. -/
def embed_text_of (c : SummaryChunk) : String :=
  "Summary: " ++ c.summary ++ "\nTopics: " ++ String.intercalate ", " c.topics ++
    "\n---\n" ++ c.text

/-- Embedding of `build_qdrant_point`: assemble the point from id, vectors
and payload. -/
def build_qdrant_point {V S : Type} (id : String) (dv : V) (sv : S)
    (payload : QdrantPayload) : QdrantPoint V S :=
  ⟨id, dv, sv, payload⟩

/-- The per-chunk body of the indexing loop: read `text`/`summary`/`topics`
from the chunk dict, build the embedding text, then the dense and sparse
vectors (each failure is caught and skips the chunk), then the point whose
payload holds `text` (the embedding text!), `summary` and `topics` — and no
`type` or `sequence_index` key. -/
def processChunk {V S : Type} (dense : String → Option V) (sparse : String → Option S)
    (id : String) (c : SummaryChunk) : Option (QdrantPoint V S) :=
  match dense (embed_text_of c) with
  | none => none
  | some dv =>
    match sparse (embed_text_of c) with
    | none => none
    | some sv =>
      some (build_qdrant_point id dv sv
        ⟨embed_text_of c, c.summary, c.topics, none, none⟩)

/-- The indexing loop `for i, chunk in enumerate(summary_chunks, 1)`: failed
chunks are skipped (`continue`), successful points are collected in order. -/
def buildPoints {V S : Type} (dense : String → Option V) (sparse : String → Option S)
    (uuid : Nat → String) : Nat → List SummaryChunk → List (QdrantPoint V S)
  | _, [] => []
  | i, c :: cs =>
    match processChunk dense sparse (uuid i) c with
    | none => buildPoints dense sparse uuid (i + 1) cs
    | some p => p :: buildPoints dense sparse uuid (i + 1) cs

/-- Embedding of `index_chunks_to_qdrant`: ensure the collection exists,
build the points, raise if none succeeded, else upsert them in one bulk call
and return how many were indexed.  The result is the updated collection
content paired with the returned count. -/
def index_chunks_to_qdrant {V S : Type} (dense : String → Option V)
    (sparse : String → Option S) (uuid : Nat → String)
    (collection : Option (List (QdrantPoint V S))) (summary_chunks : List SummaryChunk) :
    Except String (List (QdrantPoint V S) × Nat) :=
  let existing := collection.getD []
  let pts := buildPoints dense sparse uuid 1 summary_chunks
  if pts.isEmpty then
    Except.error ("No valid points created. All " ++ toString summary_chunks.length ++
      " chunks failed to process.")
  else
    Except.ok (existing ++ pts, pts.length)

/-- A chunk for which the embedding (or point-building) step fails: in the
source these are the `except` branches that count a `failed_chunk` and
`continue`. -/
def chunkFails {V S : Type} (dense : String → Option V) (sparse : String → Option S)
    (c : SummaryChunk) : Prop :=
  dense (embed_text_of c) = none ∨ sparse (embed_text_of c) = none

/-- Embedding of `get_summary_chunks`: scroll all points whose payload `type`
key matches, sort them by the stored `sequence_index` (missing key sorts
as `0`), and format `"[Seq i] summary\nTopics: ..."` blocks joined by blank
lines. -/
def get_summary_chunks {V S : Type} (collection : List (QdrantPoint V S))
    (match_type : String) : String :=
  let retrieval_points := collection.filter fun p => decide (p.payload.type? = some match_type)
  let sorted := pySortStable
    (fun a b => decide (a.payload.sequence_index?.getD 0 ≤ b.payload.sequence_index?.getD 0))
    retrieval_points
  let formatted := sorted.enum.map fun pr =>
    "[Seq " ++ toString (pr.2.payload.sequence_index?.getD (pr.1 + 1)) ++ "] " ++
      pyStrip pr.2.payload.summary ++ "\nTopics: " ++
      String.intercalate ", " pr.2.payload.topics
  String.intercalate "\n\n" formatted

/-! ## Conversation state, supervisor, and agent nodes

Embedding of the LangGraph layer.  A conversation state is the ordered list
of messages; a node returns a `Command` whose `goto` names the next node and
whose optional `update` replaces the message list (LangGraph `Command` with
no update leaves the state unchanged; returning a plain `{"messages": ...}`
dict is modelled as a `Command` whose `goto` is the graph edge target END).
The react agents and output parsers are external collaborators passed as
functions; message `content` is modelled as text (the only shape these three
nodes produce or inspect).
-/

/-- A LangChain message: `HumanMessage` or `AIMessage` with text content. -/
inductive Message where
  | human (content : String)
  | ai (content : String)
deriving DecidableEq

/-- Content of a message. -/
def Message.content : Message → String
  | human c => c
  | ai c => c

/-- The `isinstance(m, AIMessage)` test. -/
def Message.isAI : Message → Bool
  | ai _ => true
  | human _ => false

/-- A LangGraph `Command`: routing target plus optional messages update. -/
structure Command where
  goto : String
  update : Option (List Message)
deriving DecidableEq

/-- LangGraph `END` (the literal `"__end__"`). -/
def ENDNode : String := "__end__"

/-- Applying a node result to a state: an absent update leaves the messages
unchanged. -/
def applyCommand (state : List Message) (cmd : Command) : List Message :=
  cmd.update.getD state

/-- The six recognised workflow targets of the supervisor dispatch
(`supervisor_agent.py` line 119). -/
def workflowTargets : List String :=
  ["general_question_workflow", "frame_processing_workflow", "audio_processing_workflow",
   "summary_workflow", "rag_workflow", "report_workflow"]

/-- The literal set of the `AgentSupervisorRouter.next` pydantic schema
(`backend/src/prompt_engineering/schemas.py` lines 14-24): note it has only
four literals, not the six the dispatch enumerates. -/
def routerLiterals : List String :=
  ["general_question_workflow", "frame_processing_workflow", "audio_processing_workflow",
   "__end__"]

/-- The fence/quote normalisation of the raw LLM routing output
(`supervisor_agent.py` lines 88-98): strip, drop a leading ```json or ```
fence, drop a trailing ``` fence, strip again, replace single quotes by
double quotes. -/
def normalize_supervisor_output (raw : String) : String :=
  let c0 := pyStrip raw
  let c1 := if pyStartsWith c0 ("```json") then pyDrop c0 7 else c0
  let c2 := if pyStartsWith c1 "```" then pyDrop c1 3 else c1
  let c3 := if pyEndsWith c2 "```" then pyDropRight c2 3 else c2
  pyReplaceChar sglQuoteChar dblQuoteChar (pyStrip c3)

/-- Modelled from the spec (Section 6, LLM call contract): the
`PydanticOutputParser(AgentSupervisorRouter).parse` collaborator is not part
of the repository; per the schema-first contract it accepts a JSON object
with a `next` field drawn from the four schema literals and rejects anything
else. This model recognises the canonical rendering of exactly those
objects. -/
def supervisor_output_parser_parse (s : String) : Option String :=
  routerLiterals.find? fun v =>
    s = "\x7b" ++ dblQuote ++ "next" ++ dblQuote ++ ": " ++ dblQuote ++ v ++ dblQuote ++ "\x7d"

/-- Embedding of `WorkflowSupervisor.supervisor_node` (`supervisor_agent.py`
lines 41-132), over an abstract parser `parse` and react agent `agent`.  The
source also reads `state['messages'][0].content` into `user_query`, but only
logs it; the agent is invoked on the whole state.  Every return is
`Command(goto=...)` with no state update. -/
def supervisor_node (parse : String → Option String)
    (agent : List Message → List Message) (state : List Message) : Command :=
  if state = [] then ⟨ENDNode, none⟩
  else
    match (agent state).getLast? with
    | none => ⟨ENDNode, none⟩
    | some last =>
      if ¬ last.isAI then ⟨ENDNode, none⟩
      else
        match parse (normalize_supervisor_output last.content) with
        | none => ⟨ENDNode, none⟩
        | some next_node =>
          if next_node = "" then ⟨ENDNode, none⟩
          else if pyUpper next_node = "FINISH" ∨ next_node = ENDNode then ⟨ENDNode, none⟩
          else if next_node ∈ workflowTargets then ⟨next_node, none⟩
          else ⟨"general_question_workflow", none⟩

/-- Shorthand for appending one AI message and routing to END (the
`state["messages"].append(AIMessage(...)); return Command(update=..., goto=END)`
pattern shared by the agent nodes). -/
def appendAI (state : List Message) (text : String) : Command :=
  ⟨ENDNode, some (state ++ [Message.ai text])⟩

/-- The RAG node error message for a failed embedding-model load. -/
def ragErrModels : String :=
  "I" ++ sglQuote ++ "m having trouble loading the AI models. Please try again later."

/-- The RAG node error message for a failed vector-store query. -/
def ragErrQuery : String :=
  "I" ++ sglQuote ++ "m having trouble accessing the knowledge base. Please try again later."

/-- The RAG node error message for a failed document-context build. -/
def ragErrContext : String :=
  "An error occurred while processing the retrieved information."

/-- The RAG node error message for a failed vision-model load. -/
def ragErrVision : String :=
  "I" ++ sglQuote ++ "m having trouble loading the response generation model."

/-- The RAG node error message for a failed generation call. -/
def ragErrGenerate : String :=
  "An error occurred while generating the response."

/-- The RAG node fallback for an empty generated response. -/
def ragEmptyResponse : String :=
  "I" ++ sglQuote ++
    "m sorry, I couldn" ++ sglQuote ++
    "t generate a meaningful response based on the available information."

/-- Embedding of `RAGAgent.rag_node` (`rag_agent.py` lines 34-128).  The five
fallible collaborators (embedding-model load, hybrid query, context build,
vision-model load, response generation) are `Option`-valued parameters whose
`none` models the exception each dedicated `try/except` catches and turns
into one apologetic message. -/
def rag_node {EM R VM : Type} (getEmbeddingModel : Option EM)
    (queryRagPoints : EM → String → Option R)
    (buildDocContext : R → Option String)
    (getVisionModel : Option VM)
    (generateRagResponse : VM → String → String → Option String)
    (state : List Message) : Command :=
  let user_message := ((state.getLast?).map Message.content).getD "N/A"
  match getEmbeddingModel with
  | none => appendAI state ragErrModels
  | some em =>
    match queryRagPoints em user_message with
    | none => appendAI state ragErrQuery
    | some pts =>
      match buildDocContext pts with
      | none => appendAI state ragErrContext
      | some doc_context =>
        match getVisionModel with
        | none => appendAI state ragErrVision
        | some vm =>
          match generateRagResponse vm doc_context user_message with
          | none => appendAI state ragErrGenerate
          | some response =>
            if pyStrip response = "" then appendAI state ragEmptyResponse
            else appendAI state response

/-- The report node error message when fewer than two messages exist. -/
def reportErrNoSummary : String :=
  "No summary available to generate report. Please ensure summary is generated first."

/-- The report node error message when no AI message content is found. -/
def reportErrNoContent : String :=
  "Could not find summary content to generate report."

/-- The report node error message when markdown generation fails. -/
def reportErrMarkdown : String :=
  "Failed to generate markdown content from summary."

/-- The report node error message when PDF generation fails. -/
def reportErrPdf : String :=
  "Failed to generate PDF report. Please check the logs."

/-- The report node success message (file-path decomposition of the PDF path
into name and directory is elided; the message carries the path). -/
def reportSuccessMsg (pdf_path : String) : String :=
  "Report Generated Successfully! You can find your PDF report at: " ++ pdf_path

/-- Embedding of `ReportAgent.report_node` (`report_agent.py` lines 44-125).
`generateMarkdown` models `_generate_markdown_with_llm` (returns `none` on
any LLM/agent failure) and `generatePdf` models `_generate_pdf_report`
(returns the PDF path, or `none` on failure); the `if not ...:` falsiness
checks also catch empty strings. -/
def report_node (generateMarkdown : String → Option String)
    (generatePdf : String → Option String) (state : List Message) : Command :=
  if state.length < 2 then appendAI state reportErrNoSummary
  else
    let summary_content := (((state.reverse.find? Message.isAI).map Message.content)).getD ""
    if summary_content = "" then appendAI state reportErrNoContent
    else
      match generateMarkdown summary_content with
      | none => appendAI state reportErrMarkdown
      | some markdown_content =>
        if markdown_content = "" then appendAI state reportErrMarkdown
        else
          match generatePdf markdown_content with
          | some pdf_path => appendAI state (reportSuccessMsg pdf_path)
          | none => appendAI state reportErrPdf

/-- Embedding of `get_collection_name_for_session`
(`agent_workflow_builder.py` lines 23-38) over the `session_collections`
dict, modelled as an association list. -/
def get_collection_name_for_session (session_collections : List (String × String))
    (session_id : String) : Option String :=
  session_collections.lookup session_id

/-- The session-guard error message of the summary/RAG/report workflow
nodes. -/
def noVideoMsg (session_id : String) : String :=
  "No video has been processed for session " ++ sglQuote ++ session_id ++ sglQuote ++
    ". Please upload and process a video first."

/-- Embedding of the closure returned by `create_rag_workflow_node`
(`agent_workflow_builder.py` lines 129-161): resolve the session's
collection; when none is registered (Python falsiness also catches an empty
name) append the no-video message and stop — the RAG agent and its
retriever are never constructed or invoked — else run `rag_node`. -/
def rag_workflow_node {EM R VM : Type} (session_collections : List (String × String))
    (session_id : String) (getEmbeddingModel : Option EM)
    (queryRagPoints : EM → String → Option R)
    (buildDocContext : R → Option String)
    (getVisionModel : Option VM)
    (generateRagResponse : VM → String → String → Option String)
    (state : List Message) : Command :=
  match get_collection_name_for_session session_collections session_id with
  | none => ⟨ENDNode, some (state ++ [Message.ai (noVideoMsg session_id)])⟩
  | some collection_name =>
    if collection_name = "" then
      ⟨ENDNode, some (state ++ [Message.ai (noVideoMsg session_id)])⟩
    else
      rag_node getEmbeddingModel queryRagPoints buildDocContext getVisionModel
        generateRagResponse state

/-! ## Concrete instantiations used by witnesses and counterexamples -/

/-- A concrete tokenizer model: one token per space-separated word. -/
def spaceTokens (s : String) : Nat :=
  (s.data.filter fun c => decide (c = ' ')).length + 1

/-- A concrete splitter model: the text as a single piece. -/
def singletonSplit : String → List String := fun s => [s]

/-- A single 120-character word: one `spaceTokens` token, 120 characters. -/
def longWord : String := ⟨List.replicate 120 (Char.ofNat 97)⟩

/-- n space-separated one-letter words: n `spaceTokens` tokens. -/
def nWords (n : Nat) : String := String.intercalate " " (List.replicate n "a")

/-- Comparison of optional chunk starts, reading an absent start (`None`) as
smallest: the most charitable reading of "non-decreasing". -/
def startLEb : Option Int → Option Int → Bool
  | none, _ => true
  | some _, none => false
  | some a, some b => decide (a ≤ b)

/-- All consecutive chunk starts are non-decreasing. -/
def startsNonDecreasing (cs : List Chunk) : Bool :=
  (cs.zip cs.tail).all fun pr => startLEb pr.1.start pr.2.start

/-- A dense embedder that always succeeds (vectors abstracted to `Unit`). -/
def unitDense : String → Option Unit := fun _ => some ()

/-- A sparse embedder that always succeeds. -/
def unitSparse : String → Option Unit := fun _ => some ()

/-- A deterministic id supply standing in for `str(uuid4())`. -/
def seqUuid : Nat → String := fun i => "id-" ++ toString i

/-- A demonstration summary chunk with all four fields set. -/
def demoChunk : SummaryChunk := ⟨"hello", "s", ["t"], "txt"⟩

/-- The embedding text the indexer builds for `demoChunk`. -/
def demoEmbedText : String := "Summary: s\nTopics: t\n---\nhello"

/-- The point the indexer stores for `demoChunk`. -/
def demoPoint : QdrantPoint Unit Unit :=
  ⟨"id-1", (), (), ⟨demoEmbedText, "s", ["t"], none, none⟩⟩

/-- A summary chunk whose embedding succeeds under `failDense`. -/
def goodChunk : SummaryChunk := ⟨"good", "g", [], "txt"⟩

/-- A summary chunk whose embedding fails under `failDense`. -/
def badChunk : SummaryChunk := ⟨"bad", "b", [], "txt"⟩

/-- A dense embedder that fails exactly on `badChunk`'s embedding text. -/
def failDense : String → Option Unit :=
  fun s => if s = embed_text_of badChunk then none else some ()

/-- A routing agent whose answer depends on how many messages the state
holds: used to separate states sharing a first message. -/
def cexAgent : List Message → List Message := fun msgs =>
  if msgs.length = 1 then
    [Message.ai ("\x7b" ++ dblQuote ++ "next" ++ dblQuote ++ ": " ++ dblQuote ++
      "frame_processing_workflow" ++ dblQuote ++ "\x7d")]
  else
    [Message.ai ("\x7b" ++ dblQuote ++ "next" ++ dblQuote ++ ": " ++ dblQuote ++
      "__end__" ++ dblQuote ++ "\x7d")]

/-! ## Supporting lemmas -/

/-- Membership is preserved by stable insertion. -/
theorem mem_insertStable (le : α → α → Bool) (x : α) (l : List α) (a : α)
    (h : a ∈ insertStable le x l) : a = x ∨ a ∈ l := by
  induction l with
  | nil => simpa [insertStable] using h
  | cons y ys ih =>
    by_cases hc : le y x
    · simp only [insertStable, if_pos hc, List.mem_cons] at h
      rcases h with h | h
      · exact Or.inr (by simp [h])
      · rcases ih h with h | h
        · exact Or.inl h
        · exact Or.inr (by simp [h])
    · simp only [insertStable, if_neg hc, List.mem_cons] at h
      rcases h with h | h | h
      · exact Or.inl h
      · exact Or.inr (List.mem_cons.mpr (Or.inl h))
      · exact Or.inr (List.mem_cons.mpr (Or.inr h))

/-- Every element of the stable sort comes from the input list. -/
theorem mem_pySortStable (le : α → α → Bool) (l : List α) (a : α)
    (h : a ∈ pySortStable le l) : a ∈ l := by
  suffices H : ∀ (l : List α) (acc : List α),
      a ∈ l.foldl (fun acc x => insertStable le x acc) acc → a ∈ acc ∨ a ∈ l by
    rcases H l [] h with h' | h'
    · simp at h'
    · exact h'
  intro l
  induction l with
  | nil => intro acc h; simpa using h
  | cons x xs ih =>
    intro acc h
    rcases ih (insertStable le x acc) h with h' | h'
    · rcases mem_insertStable le x acc a h' with h'' | h''
      · exact Or.inr (by simp [h''])
      · exact Or.inl h''
    · exact Or.inr (by simp [h'])

/-- When `dropWhile` returns a cons, its head refutes the predicate. -/
theorem dropWhile_eq_cons_neg {α : Type} (p : α → Bool) :
    ∀ (l : List α) (c : α) (cs : List α), List.dropWhile p l = c :: cs → p c = false := by
  intro l
  induction l with
  | nil => intro c cs h; simp [List.dropWhile] at h
  | cons a as ih =>
    intro c cs h
    by_cases hp : p a
    · rw [List.dropWhile_cons, if_pos hp] at h
      exact ih c cs h
    · rw [List.dropWhile_cons, if_neg hp] at h
      cases h
      simpa using hp

/-- Left-stripping a both-sides-stripped list is a no-op. -/
theorem dropWhile_rdropWhile_dropWhile {α : Type} (p : α → Bool) (l : List α) :
    List.dropWhile p (List.rdropWhile p (List.dropWhile p l)) =
      List.rdropWhile p (List.dropWhile p l) := by
  obtain ⟨t, ht⟩ : ∃ t, List.rdropWhile p (List.dropWhile p l) ++ t = List.dropWhile p l := by
    rcases List.dropWhile_suffix (l := (List.dropWhile p l).reverse) p with ⟨u, hu⟩
    exact ⟨u.reverse, by simpa [List.rdropWhile] using congrArg List.reverse hu⟩
  cases hr : List.rdropWhile p (List.dropWhile p l) with
  | nil => simp
  | cons c cs =>
    have hc : p c = false := by
      apply dropWhile_eq_cons_neg p l c (cs ++ t)
      rw [← ht, hr]
      simp
    simp [List.dropWhile_cons, hc]

/-- Stripping is idempotent (needed because the chunker strips segment text
once when collecting segments and again inside the accumulation loop). -/
theorem pyStrip_idempotent (s : String) : pyStrip (pyStrip s) = pyStrip s := by
  show String.mk _ = String.mk _
  apply congrArg
  show List.rdropWhile _ (List.dropWhile _ (List.rdropWhile _ (List.dropWhile _ s.data))) = _
  rw [dropWhile_rdropWhile_dropWhile, List.rdropWhile_idempotent]

/-- A non-empty right factor makes a string concatenation non-empty. -/
theorem append_ne_empty_right (a b : String) (h : b ≠ "") : a ++ b ≠ "" := by
  intro he
  apply h
  have hd : (a ++ b).data = [] := by rw [he]
  rw [String.data_append] at hd
  have := List.append_eq_nil.mp hd
  cases b
  simp_all

/-- The part chunks of an oversized segment carry exactly its expected
sub-part ids. -/
theorem partChunks_flatMap_groups (split : String → List String) (seg : Seg) (t : String) :
    (partChunks split seg t).flatMap Chunk.groups =
      (split t).enum.map (fun pr => seg.key ++ "#part" ++ toString (pr.1 + 1)) := by
  unfold partChunks
  induction (split t).enum with
  | nil => simp
  | cons x xs ih => simp_all

/-- One loop iteration emits exactly the segment's expected group ids and
preserves the accumulator invariant. -/
theorem chunkStep_groups (tc : String → Nat) (split : String → List String) (maxTok : Nat)
    (st : ChunkState) (seg : Seg) (hinv : accInv st) (hseg : pyStrip seg.text ≠ "") :
    stateGroups (chunkStep tc split maxTok st seg) =
        stateGroups st ++ segGroups tc split maxTok seg ∧
      accInv (chunkStep tc split maxTok st seg) := by
  by_cases h1 : tc (pyStrip seg.text) > maxTok
  · constructor
    · by_cases h2 : st.cur.text = ""
      · have hgr : st.cur.groups = [] := hinv h2
        simp [chunkStep, stateGroups, segGroups, if_pos h1, h2, hgr,
          partChunks_flatMap_groups, emptyAcc]
      · simp [chunkStep, stateGroups, segGroups, if_pos h1, h2,
          partChunks_flatMap_groups, emptyAcc, flushAcc]
    · intro _
      simp [chunkStep, if_pos h1, emptyAcc]
  · have hne : ∀ a : CurChunk, (appendSeg a seg).text ≠ "" := by
      intro a
      exact append_ne_empty_right _ _ hseg
    by_cases h3 : st.cur.text.length + tc (pyStrip seg.text) + 1 > maxTok
    · refine ⟨?_, fun hc => absurd hc (by simpa [chunkStep, if_neg h1, if_pos h3] using hne emptyAcc)⟩
      simp [chunkStep, stateGroups, segGroups, if_neg h1, if_pos h3, flushAcc,
        appendSeg, emptyAcc]
    · refine ⟨?_, fun hc => absurd hc (by simpa [chunkStep, if_neg h1, if_neg h3] using hne st.cur)⟩
      simp [chunkStep, stateGroups, segGroups, if_neg h1, if_neg h3, appendSeg]

/-- The accumulation loop over any segment list with non-whitespace texts
adds exactly the expected group ids, preserving the invariant. -/
theorem foldl_chunkStep_groups (tc : String → Nat) (split : String → List String)
    (maxTok : Nat) :
    ∀ (l : List Seg) (st : ChunkState), accInv st → (∀ s ∈ l, pyStrip s.text ≠ "") →
      stateGroups (l.foldl (chunkStep tc split maxTok) st) =
          stateGroups st ++ l.flatMap (segGroups tc split maxTok) ∧
        accInv (l.foldl (chunkStep tc split maxTok) st) := by
  intro l
  induction l with
  | nil => intro st hinv _; exact ⟨by simp, hinv⟩
  | cons x xs ih =>
    intro st hinv hall
    have hx : pyStrip x.text ≠ "" := hall x (by simp)
    have hstep := chunkStep_groups tc split maxTok st x hinv hx
    have hrest := ih (chunkStep tc split maxTok st x) hstep.2
      (fun s hs => hall s (by simp [hs]))
    refine ⟨?_, hrest.2⟩
    simp only [List.foldl_cons, hrest.1, hstep.1, List.flatMap_cons, List.append_assoc]

/-- The final flush turns the loop state groups into the output groups. -/
theorem finalizeChunks_groups (st : ChunkState) (hinv : accInv st) :
    (finalizeChunks st).flatMap Chunk.groups = stateGroups st := by
  by_cases h : st.cur.text = ""
  · simp [finalizeChunks, stateGroups, h, hinv h]
  · simp [finalizeChunks, stateGroups, h, flushAcc]

/-- Sorted filtered segments have non-empty stripped text. -/
theorem sortedSegs_text_ne (transcript : List Seg) :
    ∀ s ∈ sortedSegs transcript, pyStrip s.text ≠ "" := by
  intro s hs
  have hmem : s ∈ filteredSegs transcript :=
    mem_pySortStable _ _ s hs
  unfold filteredSegs at hmem
  rcases List.mem_map.mp hmem with ⟨s0, hs0, rfl⟩
  have h0 : pyStrip s0.text ≠ "" := by
    have := (List.mem_filter.mp hs0).2
    simpa using this
  simpa [pyStrip_idempotent] using h0

/-- The per-chunk step of the loop fails exactly on the chunks whose
embedding step fails. -/
theorem processChunk_eq_none_iff {V S : Type} (dense : String → Option V)
    (sparse : String → Option S) (id : String) (c : SummaryChunk) :
    processChunk dense sparse id c = none ↔ chunkFails dense sparse c := by
  unfold processChunk chunkFails
  cases hd : dense (embed_text_of c) with
  | none => simp [hd]
  | some dv =>
    cases hs : sparse (embed_text_of c) with
    | none => simp [hd, hs]
    | some sv => simp [hd, hs]

/-- When no chunk of the list fails, the loop builds one point per chunk,
from any enumeration start. -/
theorem buildPoints_length_all_ok {V S : Type} (dense : String → Option V)
    (sparse : String → Option S) (uuid : Nat → String) (l : List SummaryChunk)
    (h : ∀ c ∈ l, ¬ chunkFails dense sparse c) :
    ∀ i, (buildPoints dense sparse uuid i l).length = l.length := by
  induction l with
  | nil => intro i; simp [buildPoints]
  | cons c cs ih =>
    intro i
    have hc : ¬ chunkFails dense sparse c := h c (by simp)
    cases hp : processChunk dense sparse (uuid i) c with
    | none => exact absurd ((processChunk_eq_none_iff _ _ _ _).mp hp) hc
    | some p =>
      simp only [buildPoints, hp, List.length_cons]
      rw [ih (fun x hx => h x (by simp [hx]))]

/-- When exactly one chunk of the list fails, the loop builds one point per
remaining chunk, from any enumeration start. -/
theorem buildPoints_length_one_fail {V S : Type} (dense : String → Option V)
    (sparse : String → Option S) (uuid : Nat → String)
    (l1 l2 : List SummaryChunk) (c : SummaryChunk)
    (hc : chunkFails dense sparse c)
    (hok : ∀ x ∈ l1 ++ l2, ¬ chunkFails dense sparse x) :
    ∀ i, (buildPoints dense sparse uuid i (l1 ++ c :: l2)).length = l1.length + l2.length := by
  induction l1 with
  | nil =>
    intro i
    have hp : processChunk dense sparse (uuid i) c = none :=
      (processChunk_eq_none_iff _ _ _ _).mpr hc
    simp only [List.nil_append, buildPoints, hp, List.length_nil, Nat.zero_add]
    exact buildPoints_length_all_ok dense sparse uuid l2 (fun x hx => hok x (by simpa using hx)) _
  | cons x xs ih =>
    intro i
    have hx : ¬ chunkFails dense sparse x := hok x (by simp)
    cases hp : processChunk dense sparse (uuid i) x with
    | none => exact absurd ((processChunk_eq_none_iff _ _ _ _).mp hp) hx
    | some p =>
      simp only [List.cons_append, buildPoints, hp, List.length_cons, List.append_eq]
      rw [ih (fun y hy => hok y (by
        rcases List.mem_append.mp hy with h | h
        · exact List.mem_append.mpr (Or.inl (by simp [h]))
        · exact List.mem_append.mpr (Or.inr h)))]
      omega

/-! ## Claim theorems -/

set_option maxRecDepth 100000 in
/-- C3: the claim says the accumulator is flushed if and only if its *token*
count plus the segment's token count would exceed `max_chunk_token_size`.
The code instead compares `len(current_chunk["text"])` — the accumulator's
*character* count — plus the segment's token count plus one against the
token budget.  At the valid budget 100 (the splitter construction accepts
`chunk_overlap = 100 ≤ chunk_size`, so the function really runs), a
one-token segment of 120 characters followed by a two-token segment has
token sum 1 + 2 = 3 ≤ 100, so the token-rule forbids a flush; yet the code
flushes (120 chars + 2 tokens + 1 > 100) and returns two chunks instead of
one merged chunk. -/
theorem C3_flush_condition_uses_char_length :
    chunk_transcript_text_checked spaceTokens singletonSplit 100
        [⟨"0-5s", 0, 5, longWord⟩, ⟨"5-10s", 5, 10, "x y"⟩] =
      Except.ok
        [⟨some 0, some 5, ["0-5s"], longWord⟩, ⟨some 5, some 10, ["5-10s"], "x y"⟩] ∧
    spaceTokens longWord + spaceTokens "x y" ≤ 100 :=
  ⟨rfl, by decide⟩

/-- C4 counterexample: a transcript whose only segment has whitespace-only
text.  The code silently drops the segment, so concatenating the output
groups yields `[]`, not the original ordered key list `["0-5s"]`: the claim
as stated ("no segment dropped", for every finite mapping) is false. -/
theorem C4_counterexample_whitespace_key_dropped :
    chunk_transcript_text spaceTokens singletonSplit 300 [⟨"0-5s", 0, 5, " "⟩] = [] ∧
    (chunk_transcript_text spaceTokens singletonSplit 300
        [⟨"0-5s", 0, 5, " "⟩]).flatMap Chunk.groups ≠ ["0-5s"] := by decide

/-- C4 (amended): for every transcript, tokenizer, splitter and budget,
concatenating the `groups` lists of the output chunks in order yields the
start-time-ordered list of the keys of the segments whose text is not
whitespace-only, each exactly once, an oversized key appearing as its
`#partN` sub-part ids (one per split piece). -/
theorem C4_groups_reconstruct_ordered_keys (tc : String → Nat)
    (split : String → List String) (maxTok : Nat) (transcript : List Seg) :
    (chunk_transcript_text tc split maxTok transcript).flatMap Chunk.groups =
      expectedGroups tc split maxTok transcript := by
  unfold chunk_transcript_text expectedGroups
  have h := foldl_chunkStep_groups tc split maxTok (sortedSegs transcript) ⟨[], emptyAcc⟩
    (fun _ => rfl) (sortedSegs_text_ne transcript)
  rw [finalizeChunks_groups _ h.2, h.1]
  simp [stateGroups, emptyAcc]

set_option maxRecDepth 100000 in
/-- C5: the unguarded flush (`audio_extractor.py` line 353 has no
`if current_chunk["text"]:` test, unlike line 334) emits the empty
accumulator — a chunk with `start = None`, no groups and empty text —
whenever a segment of exactly `max_chunk_token_size` tokens arrives on an
empty accumulator.  At the valid budget 100 (splitter construction
succeeds), an oversized 101-token segment resets the accumulator and the
following exactly-100-token segment triggers the unguarded flush, so the
`None`-start chunk lands *between* two real chunks: the output starts are
`[some 0, none, some 5]`, not a non-decreasing sequence of floats under any
reading. -/
theorem C5_none_start_chunk_between_real_chunks :
    chunk_transcript_text_checked spaceTokens singletonSplit 100
        [⟨"0-5s", 0, 5, nWords 101⟩, ⟨"5-10s", 5, 10, nWords 100⟩] =
      Except.ok
        [⟨some 0, some 5, ["0-5s#part1"], nWords 101⟩,
         ⟨none, none, [], ""⟩,
         ⟨some 5, some 10, ["5-10s"], nWords 100⟩] ∧
    startsNonDecreasing
        [⟨some 0, some 5, ["0-5s#part1"], nWords 101⟩,
         ⟨none, none, [], ""⟩,
         ⟨some 5, some 10, ["5-10s"], nWords 100⟩] = false :=
  ⟨rfl, by decide⟩

/-- C1: indexing one fully-populated summary chunk stores a payload holding
only `text`/`summary`/`topics`; the `type` key and the claimed monotonically
increasing `sequence_index` are never written (`utils.py` lines 161-165),
and the stored `text` is the formatted embedding text, not the chunk's
`text` field. -/
theorem C1_payload_has_no_type_or_sequence_index :
    index_chunks_to_qdrant unitDense unitSparse seqUuid (some []) [demoChunk] =
      Except.ok ([demoPoint], 1) ∧
    demoPoint.payload.type? = none ∧
    demoPoint.payload.sequence_index? = none ∧
    demoPoint.payload.text ≠ demoChunk.text :=
  ⟨rfl, rfl, rfl, by decide⟩

/-- C2: the indexing round-trip fails.  After indexing `demoChunk` (whose
`type` is `"txt"`), the scroll filter `type == "txt"` of
`get_summary_chunks` matches no stored point — the indexer never wrote a
`type` key — so the retrieval returns the empty string instead of a payload
matching the input's `summary`/`topics`/`text`. -/
theorem C2_round_trip_retrieves_nothing :
    index_chunks_to_qdrant unitDense unitSparse seqUuid (some []) [demoChunk] =
      Except.ok ([demoPoint], 1) ∧
    demoChunk.type = "txt" ∧
    get_summary_chunks [demoPoint] "txt" = "" ∧
    demoChunk.summary ≠ "" :=
  ⟨rfl, rfl, by decide, by decide⟩

/-- C10: when exactly one chunk's embedding step fails and every other chunk
succeeds, the indexer completes without raising and returns `N - 1`
(provided at least one chunk succeeds), and raises instead of returning `0`
when no chunk succeeds. -/
theorem C10_partial_failure_isolation {V S : Type} (dense : String → Option V)
    (sparse : String → Option S) (uuid : Nat → String)
    (collection : Option (List (QdrantPoint V S)))
    (l1 l2 : List SummaryChunk) (c : SummaryChunk)
    (hc : chunkFails dense sparse c)
    (hok : ∀ x ∈ l1 ++ l2, ¬ chunkFails dense sparse x) :
    (l1 ++ l2 ≠ [] →
      ∃ pts, index_chunks_to_qdrant dense sparse uuid collection (l1 ++ c :: l2) =
        Except.ok (pts, (l1 ++ c :: l2).length - 1)) ∧
    (l1 = [] → l2 = [] →
      ∃ e, index_chunks_to_qdrant dense sparse uuid collection (l1 ++ c :: l2) =
        Except.error e) := by
  have hlen := buildPoints_length_one_fail dense sparse uuid l1 l2 c hc hok 1
  constructor
  · intro hne
    have hpts : (buildPoints dense sparse uuid 1 (l1 ++ c :: l2) :
        List (QdrantPoint V S)).isEmpty = false := by
      by_contra hcon
      rw [Bool.not_eq_false, List.isEmpty_iff] at hcon
      rw [hcon] at hlen
      simp only [List.length_nil] at hlen
      have h1 : l1.length = 0 := by omega
      have h2 : l2.length = 0 := by omega
      exact hne (by
        rw [List.length_eq_zero.mp h1, List.length_eq_zero.mp h2]
        rfl)
    refine ⟨collection.getD [] ++ buildPoints dense sparse uuid 1 (l1 ++ c :: l2), ?_⟩
    simp only [index_chunks_to_qdrant, hpts, Bool.false_eq_true, if_false]
    have : (buildPoints dense sparse uuid 1 (l1 ++ c :: l2) :
        List (QdrantPoint V S)).length = (l1 ++ c :: l2).length - 1 := by
      rw [hlen]
      simp [List.length_append]
    rw [this]
  · intro h1 h2
    subst h1
    subst h2
    have hp : processChunk dense sparse (uuid 1) c = none :=
      (processChunk_eq_none_iff _ _ _ _).mpr hc
    refine ⟨"No valid points created. All " ++
      toString (([] ++ c :: [] : List SummaryChunk)).length ++
      " chunks failed to process.", ?_⟩
    simp only [List.nil_append, index_chunks_to_qdrant, buildPoints, hp, List.isEmpty_nil,
      if_true]

/-- C10 witness: two chunks where the embedding of the second fails — the
indexer returns `2 - 1 = 1`. -/
theorem C10_witness :
    ∃ pts, index_chunks_to_qdrant failDense unitSparse seqUuid
        (some ([] : List (QdrantPoint Unit Unit))) [goodChunk, badChunk] =
      Except.ok (pts, 1) := by
  have h := C10_partial_failure_isolation failDense unitSparse seqUuid (some [])
    [goodChunk] [] badChunk
    (by unfold chunkFails; decide)
    (by
      intro x hx
      rcases List.mem_singleton.mp (by simpa using hx) with rfl
      unfold chunkFails
      decide)
  simpa using h.1 (by decide)

/-- C6: when the raw routing output fails to parse (any parse exception,
including a missing `next` field, yields no value) the supervisor routes to
END; and whenever a parsed `next` value is neither FINISH/END nor one of the
six enumerated workflow literals the supervisor dispatches to
`general_question_workflow` — never to any other workflow, and the node is
total (it never raises). -/
theorem C6_supervisor_failure_policy (parse : String → Option String)
    (agent : List Message → List Message) (state : List Message) (raw : String)
    (hne : state ≠ []) (hlast : (agent state).getLast? = some (Message.ai raw)) :
    (parse (normalize_supervisor_output raw) = none →
      supervisor_node parse agent state = ⟨ENDNode, none⟩) ∧
    (∀ v, parse (normalize_supervisor_output raw) = some v → v ≠ "" →
      pyUpper v ≠ "FINISH" → v ≠ ENDNode → v ∉ workflowTargets →
      supervisor_node parse agent state = ⟨"general_question_workflow", none⟩) := by
  constructor
  · intro hp
    simp [supervisor_node, hne, hlast, Message.isAI, Message.content, hp]
  · intro v hp hv1 hv2 hv3 hv4
    simp [supervisor_node, hne, hlast, Message.isAI, Message.content, hp, hv1, hv2, hv3, hv4]

/-- C6 witness: a parser that rejects everything routes a concrete one-message
state to END. -/
theorem C6_witness :
    supervisor_node (fun _ => none) (fun _ => [Message.ai "x"]) [Message.human "hi"] =
      ⟨ENDNode, none⟩ :=
  (C6_supervisor_failure_policy (fun _ => none) (fun _ => [Message.ai "x"])
    [Message.human "hi"] "x" (by decide) (by decide)).1 rfl

/-- C7 counterexample: two states with the same first user message but
different lengths; the supervisor invokes the routing agent on the *whole*
state (`self.agent.invoke(state)`), so the same agent answers differently
and the two routing decisions differ — the decision does not depend only on
the first message. -/
theorem C7_counterexample_history_changes_route :
    ([Message.human "hi"] : List Message).head? =
      ([Message.human "hi", Message.ai "x"] : List Message).head? ∧
    supervisor_node supervisor_output_parser_parse cexAgent [Message.human "hi"] ≠
      supervisor_node supervisor_output_parser_parse cexAgent
        [Message.human "hi", Message.ai "x"] := by decide

/-- C7 (amended): the routing decision is a function of the agent's response
to the full conversation state alone — for non-empty states, equal agent
responses give equal routing decisions, whatever else the states contain. -/
theorem C7_route_depends_only_on_agent_response (parse : String → Option String)
    (g1 g2 : List Message → List Message) (s1 s2 : List Message)
    (h1 : s1 ≠ []) (h2 : s2 ≠ []) (h : g1 s1 = g2 s2) :
    supervisor_node parse g1 s1 = supervisor_node parse g2 s2 := by
  simp only [supervisor_node, if_neg h1, if_neg h2, h]

/-- C7 witness: a constant agent routes two different non-empty states
identically. -/
theorem C7_witness :
    supervisor_node supervisor_output_parser_parse (fun _ => [Message.ai "r"])
        [Message.human "a"] =
      supervisor_node supervisor_output_parser_parse (fun _ => [Message.ai "r"])
        [Message.human "b"] :=
  C7_route_depends_only_on_agent_response supervisor_output_parser_parse
    (fun _ => [Message.ai "r"]) (fun _ => [Message.ai "r"])
    [Message.human "a"] [Message.human "b"] (by decide) (by decide) rfl

/-- C8 counterexample: the supervisor node returns `Command(goto=...)` with
no state update on every path — on this concrete state it appends zero
messages, not exactly one as the claim requires of every workflow node. -/
theorem C8_counterexample_supervisor_appends_none :
    (applyCommand [Message.human "hi"]
        (supervisor_node supervisor_output_parser_parse cexAgent [Message.human "hi"])).length =
      ([Message.human "hi"] : List Message).length := by decide

/-- C8 (amended): each agent node appends exactly one new message on every
execution path, including all error paths, and never removes or reorders
existing messages (the update is always the old list plus one new message);
the supervisor node appends no message at all — it only routes. -/
theorem C8_agent_nodes_append_exactly_one :
    (∀ {EM R VM : Type} (ge : Option EM) (q : EM → String → Option R)
        (b : R → Option String) (gv : Option VM)
        (gr : VM → String → String → Option String) (state : List Message),
      ∃ m, rag_node ge q b gv gr state = ⟨ENDNode, some (state ++ [m])⟩) ∧
    (∀ (gm gp : String → Option String) (state : List Message),
      ∃ m, report_node gm gp state = ⟨ENDNode, some (state ++ [m])⟩) ∧
    (∀ (parse : String → Option String) (agent : List Message → List Message)
        (state : List Message), (supervisor_node parse agent state).update = none) := by
  refine ⟨?_, ?_, ?_⟩
  · intro EM R VM ge q b gv gr state
    simp only [rag_node, appendAI]
    repeat' split
    all_goals exact ⟨_, rfl⟩
  · intro gm gp state
    simp only [report_node, appendAI]
    repeat' split
    all_goals exact ⟨_, rfl⟩
  · intro parse agent state
    simp only [supervisor_node]
    repeat' split
    all_goals rfl

/-- C9: for a session with no registered collection, the RAG workflow node
returns normally (no exception is possible: the embedding is total), appends
exactly the no-video user-facing message, and never consults the retriever —
the result is the same for every retrieval function. -/
theorem C9_rag_guard_without_collection {EM R VM : Type}
    (sessions : List (String × String)) (session_id : String)
    (ge : Option EM) (q q' : EM → String → Option R) (b : R → Option String)
    (gv : Option VM) (gr : VM → String → String → Option String)
    (state : List Message)
    (h : sessions.lookup session_id = none) :
    rag_workflow_node sessions session_id ge q b gv gr state =
        ⟨ENDNode, some (state ++ [Message.ai (noVideoMsg session_id)])⟩ ∧
    rag_workflow_node sessions session_id ge q b gv gr state =
      rag_workflow_node sessions session_id ge q' b gv gr state := by
  have h' : get_collection_name_for_session sessions session_id = none := h
  constructor <;> simp [rag_workflow_node, h']

/-- C9 witness: session `"s9"` has no collection while `"s1"` does; the node
emits the no-video message for `"s9"`. -/
theorem C9_witness :
    @rag_workflow_node Unit Unit Unit [("s1", "videoA")] "s9" (some ())
        (fun _ _ => some ()) (fun _ => some "ctx") (some ())
        (fun _ _ _ => some "ans") [Message.human "q"] =
      ⟨ENDNode, some ([Message.human "q"] ++ [Message.ai (noVideoMsg "s9")])⟩ :=
  (C9_rag_guard_without_collection [("s1", "videoA")] "s9" (some ())
    (fun _ _ => some ()) (fun _ _ => some ()) (fun _ => some "ctx") (some ())
    (fun _ _ _ => some "ans") [Message.human "q"] (by decide)).1
